import Mathlib

/-!
Verification development for the mechanical-basic interpreter
(package `internal/basic` plus the `pkg/basic` facade).

The Go source is shallowly embedded:

* Go `int` is the 64-bit signed platform integer; it is modeled as `Int`
  with an explicit two's-complement wraparound `wrap64` applied wherever
  the interpreter performs arithmetic on values (matching the language
  spec's stated wraparound stance).  The one place Go deviates from
  wraparound (a run-time panic on `minInt64 / -1`) is noted at `goIntDiv`.
* Go `float64` is modeled as `Rat`.  The interpreter's float arithmetic
  (`+ - * /`) is exact IEEE-rounded arithmetic in Go; rationals agree with
  it on every value exercised here, and no theorem below depends on
  rounding behavior.
* Go `interface{}` values flowing through the evaluator form the closed
  variant `Value`; the untyped `nil` interface (the absence sentinel) is
  `Value.vnil`.
* Errors (`error` returns) are `Except String`; the message strings mirror
  the `fmt.Errorf` formats of the source.  Functions additionally return
  the interpreter state, since Go mutates the receiver before returning an
  error.  Recursion in the evaluator is made total with a fuel parameter:
  `none` means the fuel ran out, `some` is the Go result.
* The print sink is modeled as an output list accumulated in the state
  (the tests install exactly such a collecting sink).
-/

namespace MB

/-- Two's-complement wraparound of Go's 64-bit `int`. -/
def wrap64 (n : Int) : Int :=
  Int.emod (n + 9223372036854775808) 18446744073709551616 - 9223372036854775808

/-- Go integer division (`/` on `int`): quotient rounded toward zero.
Go panics at `minInt64 / -1` (the only overflowing case) where this
returns the wrapped value; no claim below exercises that input, and the
caller `divideValues` has already excluded a zero divisor. -/
def goIntDiv (a b : Int) : Int :=
  let q : Int := ((a.natAbs / b.natAbs : Nat) : Int)
  if (0 ≤ a ∧ 0 ≤ b) ∨ (a < 0 ∧ b < 0) then q else -q

/-- Source positions, `ast.go` `Pos` (line and column, 1-indexed). -/
structure Pos where
  line : Nat
  column : Nat
deriving DecidableEq, Repr

/-- The interpreter's runtime value domain: the Go dynamic types that the
evaluator produces (`int`, `float64`, `string`, `bool`, and the untyped
`nil` interface used as the absence sentinel). -/
inductive Value where
  | int (n : Int)
  | float (q : Rat)
  | str (s : String)
  | bool (b : Bool)
  | vnil
deriving DecidableEq, Repr

/-- Go `%T` of a value held in an `interface{}`, as used in the
interpreter's error messages. -/
def goTypeName : Value → String
  | .int _ => "int"
  | .float _ => "float64"
  | .str _ => "string"
  | .bool _ => "bool"
  | .vnil => "<nil>"

/-- Interpreter.toFloat64: numeric coercion to `float64`. -/
def toFloat64 : Value → Option Rat
  | .int n => some (n : Rat)
  | .float q => some q
  | _ => none

/-- Truncation of a rational toward zero, Go's `int(v)` conversion from
`float64` (conversion of an out-of-range float is not exercised by any
claim). -/
def ratTrunc (q : Rat) : Int :=
  let t : Int := ((q.num.natAbs / q.den : Nat) : Int)
  if q.num < 0 then -t else t

/-- Interpreter.toInt: coercion to `int` (floats truncate toward zero). -/
def toInt : Value → Option Int
  | .int n => some n
  | .float q => some (ratTrunc q)
  | _ => none

/-- Decimal digits of the fractional part `rem/den` (long division,
stopping on a zero remainder or after the fuel runs out). -/
def fracDigits : Nat → Nat → Nat → String
  | 0, _, _ => ""
  | _ + 1, 0, _ => ""
  | fuel + 1, rem, den =>
    let rem10 := rem * 10
    toString (rem10 / den) ++ fracDigits fuel (rem10 % den) den

/-- Rendering of a float, Go `fmt.Sprintf("%g", v)`: an integral value
prints with no fractional part ("3", not "3.0"), otherwise the decimal
expansion.  (Go switches to exponent form for very large or small
magnitudes; no claim exercises such values.) -/
def floatToString (q : Rat) : String :=
  let sign := if q.num < 0 then "-" else ""
  let na := q.num.natAbs
  let ip := na / q.den
  let rem := na % q.den
  if rem = 0 then sign ++ toString ip
  else sign ++ toString ip ++ "." ++ fracDigits 17 rem q.den

/-- Interpreter.toString: string conversion of a value (named
`valueToString` here to avoid clashing with Lean's `toString`). -/
def valueToString : Value → String
  | .str s => s
  | .int n => toString n
  | .float q => floatToString q
  | .bool b => if b then "true" else "false"
  | .vnil => ""

/-- Interpreter.isTruthy. -/
def isTruthy : Value → Bool
  | .vnil => false
  | .bool b => b
  | .int n => n != 0
  | .float q => q != 0
  | .str s => s != ""

/-- Interpreter.addValues: string concatenation when either side is a
string (left-string case first), otherwise numeric addition, int when
both operands are ints. -/
def addValues (left right : Value) : Except String Value :=
  match left, right with
  | .str ls, _ => .ok (.str (ls ++ valueToString right))
  | _, .str _ => .ok (.str (valueToString left ++ valueToString right))
  | _, _ =>
    match toFloat64 left, toFloat64 right with
    | some lf, some rf =>
      match left, right with
      | .int li, .int ri => .ok (.int (wrap64 (li + ri)))
      | _, _ => .ok (.float (lf + rf))
    | _, _ => .error ("cannot add " ++ goTypeName left ++ " and " ++ goTypeName right)

/-- Interpreter.subtractValues. -/
def subtractValues (left right : Value) : Except String Value :=
  match toFloat64 left, toFloat64 right with
  | some lf, some rf =>
    match left, right with
    | .int li, .int ri => .ok (.int (wrap64 (li - ri)))
    | _, _ => .ok (.float (lf - rf))
  | _, _ => .error ("cannot subtract " ++ goTypeName right ++ " from " ++ goTypeName left)

/-- Interpreter.multiplyValues. -/
def multiplyValues (left right : Value) : Except String Value :=
  match toFloat64 left, toFloat64 right with
  | some lf, some rf =>
    match left, right with
    | .int li, .int ri => .ok (.int (wrap64 (li * ri)))
    | _, _ => .ok (.float (lf * rf))
  | _, _ => .error ("cannot multiply " ++ goTypeName left ++ " and " ++ goTypeName right)

/-- Interpreter.divideValues: the zero check precedes the division and
catches an integer as well as a float zero. -/
def divideValues (left right : Value) : Except String Value :=
  match toFloat64 left, toFloat64 right with
  | some lf, some rf =>
    if rf = 0 then .error "division by zero"
    else
      match left, right with
      | .int li, .int ri => .ok (.int (wrap64 (goIntDiv li ri)))
      | _, _ => .ok (.float (lf / rf))
  | _, _ => .error ("cannot divide " ++ goTypeName left ++ " by " ++ goTypeName right)

/-- Interpreter.equalValues: type-aware equality; pairings outside
int-int, int-float, float-float, string-string, bool-bool (in particular
anything involving the nil sentinel) fall through to false. -/
def equalValues : Value → Value → Bool
  | .int lv, .int rv => lv == rv
  | .int lv, .float rv => (lv : Rat) == rv
  | .float lv, .float rv => lv == rv
  | .float lv, .int rv => lv == (rv : Rat)
  | .str lv, .str rv => lv == rv
  | .bool lv, .bool rv => lv == rv
  | _, _ => false

/-- UTF-8 encoding of a code point, Go `utf8.EncodeRune` as invoked by
`strings.Builder.WriteRune`. -/
def utf8EncodeRune (c : Nat) : List Nat :=
  if c < 128 then [c]
  else if c < 2048 then [192 + c / 64, 128 + c % 64]
  else if c < 65536 then [224 + c / 4096, 128 + c / 64 % 64, 128 + c % 64]
  else [240 + c / 262144, 128 + c / 4096 % 64, 128 + c / 64 % 64, 128 + c % 64]

/-- UTF-8 bytes of a string (Go strings are byte slices holding UTF-8). -/
def strBytes (s : String) : List Nat :=
  s.data.foldr (fun c acc => utf8EncodeRune c.toNat ++ acc) []

/-- Lexicographic order on byte sequences, Go's `<` on strings. -/
def bytesLt : List Nat → List Nat → Bool
  | [], [] => false
  | [], _ :: _ => true
  | _ :: _, [] => false
  | a :: as, b :: bs => if a < b then true else if b < a then false else bytesLt as bs

/-- Interpreter.compareValues: numeric three-way comparison when both
operands coerce to float, else byte-wise comparison of the string
conversions. -/
def compareValues (left right : Value) : Int :=
  match toFloat64 left, toFloat64 right with
  | some lf, some rf => if lf < rf then -1 else if rf < lf then 1 else 0
  | _, _ =>
    let ls := strBytes (valueToString left)
    let rs := strBytes (valueToString right)
    if bytesLt ls rs then -1 else if bytesLt rs ls then 1 else 0

/-!
Tokenizer fragment (`tokenizer.go`).  The tokenizer indexes the input
string by BYTES: `t.input[t.pos]` is a byte and `rune(t.input[t.pos])`
is the code point whose value is that byte.  The input is therefore
modeled as a list of bytes (`Nat` below 256).
-/

/-- Go `unicode.IsDigit(rune(b))` for a single byte `b` (only the ASCII
digits are digits among code points below 256). -/
def goIsDigitByte (b : Nat) : Bool :=
  48 ≤ b && b ≤ 57

/-- Go `unicode.IsLetter(rune(b))` for a single byte `b`: the Unicode
Letter category restricted to code points U+0000..U+00FF (ASCII letters
plus the Latin-1 letters ª µ º À-Ö Ø-ö ø-ÿ). -/
def goIsLetterByte (b : Nat) : Bool :=
  (65 ≤ b && b ≤ 90) || (97 ≤ b && b ≤ 122) ||
  b == 170 || b == 181 || b == 186 ||
  (192 ≤ b && b ≤ 214) || (216 ≤ b && b ≤ 246) || (248 ≤ b && b ≤ 255)

/-- The one escape-mapping step of Tokenizer.scanString: the recognized
escapes are rewritten, any other escaped byte is kept as scanned. -/
def escapeByte (e : Nat) : Nat :=
  if e = 34 then 34           -- \" -> "
  else if e = 92 then 92      -- \\ -> \
  else if e = 110 then 10     -- \n -> LF
  else if e = 116 then 9      -- \t -> TAB
  else if e = 114 then 13     -- \r -> CR
  else e

/-- Tokenizer.scanString, started just after the opening quote: returns
the bytes of the token's Value and the unconsumed rest of the input, or
`none` for an unterminated string (end of input, or a raw newline).
Each scanned byte is read as a rune (`rune(t.input[t.pos])`) and written
back through `strings.Builder.WriteRune`, which UTF-8-encodes that code
point — so a byte at 128 or above is re-encoded as two bytes. -/
def scanString : List Nat → Option (List Nat × List Nat)
  | [] => none
  | b :: rest =>
    if b = 10 then none
    else if b = 34 then some ([], rest)
    else if b = 92 then
      match rest with
      | [] => none
      | e :: rest2 =>
        match scanString rest2 with
        | none => none
        | some (v, rem) => some (utf8EncodeRune (escapeByte e) ++ v, rem)
    else
      match scanString rest with
      | none => none
      | some (v, rem) => some (utf8EncodeRune b ++ v, rem)

/-- Modelled from the spec: string-literal scanning as §4.1 and §6
describe it — the five recognized escapes rewritten and every other
content byte preserved byte for byte ("preserves multi-byte …
string contents").  Used only to compare `scanString` against the
spec's words. -/
def scanStringSpec : List Nat → Option (List Nat × List Nat)
  | [] => none
  | b :: rest =>
    if b = 10 then none
    else if b = 34 then some ([], rest)
    else if b = 92 then
      match rest with
      | [] => none
      | e :: rest2 =>
        match scanStringSpec rest2 with
        | none => none
        | some (v, rem) => some (escapeByte e :: v, rem)
    else
      match scanStringSpec rest with
      | none => none
      | some (v, rem) => some (b :: v, rem)

/-- Continuation-byte loop of Tokenizer.scanIdentifier: after the first
byte of an identifier is consumed, bytes continue to be consumed while
`unicode.IsLetter(rune(b)) || unicode.IsDigit(rune(b)) || b == '_'`;
returns (consumed bytes, rest).  The token's Value is the raw input
slice `t.input[t.start:t.pos]`, i.e. exactly the consumed bytes. -/
def scanIdentRest : List Nat → List Nat × List Nat
  | [] => ([], [])
  | b :: rest =>
    if goIsLetterByte b || goIsDigitByte b || b == 95 then
      let p := scanIdentRest rest
      (b :: p.1, p.2)
    else ([], b :: rest)

/-!
Token kinds (`token.go`) and the AST (`ast.go`).
-/

/-- TokenType, the closed set of token kinds.  The evaluator stores one
in every AssignStatement, BinaryExpr and UnaryExpr. -/
inductive TokenType where
  | EOF | NEWLINE | COMMENT
  | IDENTIFIER | INT | FLOAT | STRING | TRUE | FALSE
  | LET | IF | THEN | ELSE | ELSEIF | ENDIF | FOR | TO | NEXT | BREAK
  | FUNCTION | ENDFUNCTION | RETURN | PRINT | AND | OR | NOT
  | PLUS | MINUS | STAR | SLASH | EQ | NEQ | LT | GT | LTE | GTE
  | PLUS_EQ | MINUS_EQ | PLUS_PLUS | MINUS_MINUS
  | LPAREN | RPAREN | COMMA | COLON
deriving DecidableEq, Repr

/-- TokenType.String(), as interpolated into error messages. -/
def tokenName : TokenType → String
  | .EOF => "EOF" | .NEWLINE => "NEWLINE" | .COMMENT => "COMMENT"
  | .IDENTIFIER => "IDENTIFIER" | .INT => "INT" | .FLOAT => "FLOAT"
  | .STRING => "STRING" | .TRUE => "TRUE" | .FALSE => "FALSE"
  | .LET => "LET" | .IF => "IF" | .THEN => "THEN" | .ELSE => "ELSE"
  | .ELSEIF => "ELSEIF" | .ENDIF => "ENDIF" | .FOR => "FOR" | .TO => "TO"
  | .NEXT => "NEXT" | .BREAK => "BREAK" | .FUNCTION => "FUNCTION"
  | .ENDFUNCTION => "ENDFUNCTION" | .RETURN => "RETURN" | .PRINT => "PRINT"
  | .AND => "AND" | .OR => "OR" | .NOT => "NOT"
  | .PLUS => "PLUS" | .MINUS => "MINUS" | .STAR => "STAR" | .SLASH => "SLASH"
  | .EQ => "EQ" | .NEQ => "NEQ" | .LT => "LT" | .GT => "GT"
  | .LTE => "LTE" | .GTE => "GTE" | .PLUS_EQ => "PLUS_EQ"
  | .MINUS_EQ => "MINUS_EQ" | .PLUS_PLUS => "PLUS_PLUS"
  | .MINUS_MINUS => "MINUS_MINUS" | .LPAREN => "LPAREN"
  | .RPAREN => "RPAREN" | .COMMA => "COMMA" | .COLON => "COLON"

/-- Expression nodes of `ast.go`.  Integer literals are stored as parsed
by `strconv.ParseInt(..., 64)`, so their payload is within the 64-bit
range for every program the parser can produce. -/
inductive Expression where
  | intLit (pos : Pos) (value : Int)
  | floatLit (pos : Pos) (value : Rat)
  | stringLit (pos : Pos) (value : String)
  | boolLit (pos : Pos) (value : Bool)
  | ident (pos : Pos) (name : String)
  | binary (pos : Pos) (left : Expression) (op : TokenType) (right : Expression)
  | unary (pos : Pos) (op : TokenType) (operand : Expression)
  | call (pos : Pos) (name : String) (args : List Expression)

/-- Statement nodes of `ast.go`.  An elseif clause is (Pos, condition,
block); an AssignStatement's expression is absent (`none`) for `++` and
`--`. -/
inductive Statement where
  | letStmt (pos : Pos) (name : String) (value : Expression)
  | assign (pos : Pos) (name : String) (op : TokenType) (value : Option Expression)
  | ifStmt (pos : Pos) (cond : Expression) (thenBlock : List Statement)
      (elseIfs : List (Pos × Expression × List Statement)) (elseBlock : List Statement)
  | forStmt (pos : Pos) (varName : String) (startE : Expression) (stopE : Expression)
      (body : List Statement)
  | breakStmt (pos : Pos)
  | funcStmt (pos : Pos) (name : String) (params : List String) (body : List Statement)
  | returnStmt (pos : Pos) (value : Option Expression)
  | printStmt (pos : Pos) (value : Expression)
  | exprStmt (pos : Pos) (expr : Expression)

/-- Program: the ordered top-level statement sequence. -/
abbrev Program := List Statement

/-- FunctionStatement as stored in the script-function table. -/
structure FuncDef where
  pos : Pos
  name : String
  params : List String
  body : List Statement

/-!
Interpreter state (`interpreter.go`).
-/

/-- Host-callback signature (ExternalFunc).  Go callbacks may carry side
effects outside the interpreter; inside the evaluator they are a value
function or an error, which is all the evaluator observes. -/
abbrev ExtFn := List Value → Except String Value

/-- One scope: Go's `map[string]interface{}`, modeled as an association
list with replace-on-insert. -/
abbrev Frame := List (String × Value)

/-- Map lookup. -/
def frameGet (f : Frame) (name : String) : Option Value :=
  match f with
  | [] => none
  | (k, v) :: rest => if k = name then some v else frameGet rest name

/-- Map assignment: replace an existing key or append a new one. -/
def frameSet (f : Frame) (name : String) (v : Value) : Frame :=
  match f with
  | [] => [(name, v)]
  | (k, w) :: rest => if k = name then (k, v) :: rest else (k, w) :: frameSet rest name v

/-- Go strings.ToLower for the ASCII identifiers the language uses. -/
def lowerStr (s : String) : String := ⟨s.data.map Char.toLower⟩

/-- Interpreter: the per-instance state.  `output` accumulates the values
handed to the print sink (printFunc); the AST cache is not modeled since
execution here starts from parsed programs. -/
structure InterpState where
  externalFuncs : List (String × ExtFn)
  userFuncs : List (String × FuncDef)
  scopes : List Frame
  maxIterations : Int
  iterationCount : Int
  breakFlag : Bool
  returnFlag : Bool
  returnValue : Value
  output : List Value

/-- Association-list lookup for the function tables. -/
def lookupAssoc {α : Type} (l : List (String × α)) (name : String) : Option α :=
  match l with
  | [] => none
  | (k, v) :: rest => if k = name then some v else lookupAssoc rest name

/-- Association-list insert with overwrite (Go map assignment). -/
def insertAssoc {α : Type} (l : List (String × α)) (name : String) (v : α) : List (String × α) :=
  match l with
  | [] => [(name, v)]
  | (k, w) :: rest => if k = name then (k, v) :: rest else (k, w) :: insertAssoc rest name v

/-- Update of the innermost (last) scope, Go `i.currentScope()` mutation.
(On an empty scope stack Go would panic; the stack is never empty.) -/
def updateCurrent : List Frame → (Frame → Frame) → List Frame
  | [], _ => []
  | [f], g => [g f]
  | f :: rest, g => f :: updateCurrent rest g

/-- Interpreter.pushScope. -/
def pushScope (st : InterpState) : InterpState :=
  { st with scopes := st.scopes ++ [[]] }

/-- Interpreter.popScope (keeps at least the global frame). -/
def popScope (st : InterpState) : InterpState :=
  if st.scopes.length > 1 then { st with scopes := st.scopes.dropLast } else st

/-- Interpreter.getVariable: innermost-to-outermost search (frames later
in the list are inner, so the tail is searched first). -/
def lookupFrames : List Frame → String → Option Value
  | [], _ => none
  | f :: rest, name =>
    match lookupFrames rest name with
    | some v => some v
    | none => frameGet f name

/-- Interpreter.getVariable, with its error message. -/
def getVariable (st : InterpState) (name : String) : Except String Value :=
  match lookupFrames st.scopes name with
  | some v => .ok v
  | none => .error ("undefined variable: " ++ name)

/-- Innermost frame already holding the name gets the assignment (the
input list here is innermost-first, i.e. the reversed scope stack). -/
def setInFirst : List Frame → String → Value → Option (List Frame)
  | [], _, _ => none
  | f :: rest, name, v =>
    match frameGet f name with
    | some _ => some (frameSet f name v :: rest)
    | none =>
      match setInFirst rest name v with
      | some r => some (f :: r)
      | none => none

/-- Interpreter.setVariable: update the innermost frame that defines the
name, else create it in the current frame. -/
def setVariable (st : InterpState) (name : String) (v : Value) : InterpState :=
  match setInFirst st.scopes.reverse name v with
  | some r => { st with scopes := r.reverse }
  | none => { st with scopes := updateCurrent st.scopes (fun f => frameSet f name v) }

/-- Interpreter.runtimeError's message format. -/
def runtimeErrMsg (pos : Pos) (msg : String) : String :=
  "runtime error at line " ++ toString pos.line ++ ", column " ++
    toString pos.column ++ ": " ++ msg

/-!
The evaluator (`interpreter.go`).  Each function takes a fuel argument
and returns `none` when it runs out; `some (st, r)` is the Go outcome
`r` together with the mutated interpreter state.
-/

/-- Parameter binding into the current scope (the loops in
Interpreter.Call and Interpreter.callUserFunction): each parameter name
is lowercased and bound to the corresponding argument. -/
def bindFrame (f : Frame) (params : List String) (args : List Value) : Frame :=
  match params, args with
  | p :: ps, a :: as => bindFrame (frameSet f (lowerStr p) a) ps as
  | _, _ => f

/-- The state with which a script function's body starts executing in
Interpreter.callUserFunction: a fresh scope holding only the bound
parameters is pushed, and the return flag and value are reset (the old
ones are saved by the caller). -/
def callBodyState (st : InterpState) (fn : FuncDef) (args : List Value) : InterpState :=
  let st1 := pushScope st
  { st1 with
    scopes := updateCurrent st1.scopes (fun f => bindFrame f fn.params args)
    returnFlag := false
    returnValue := .vnil }

mutual

/-- Interpreter.evaluateExpression together with
Interpreter.evaluateBinaryExpr, Interpreter.evaluateUnaryExpr and
Interpreter.evaluateCallExpr. -/
def evalExpr : Nat → InterpState → Expression → Option (InterpState × Except String Value)
  | 0, _, _ => none
  | fuel + 1, st, e =>
    match e with
    | .intLit _ v => some (st, .ok (.int v))
    | .floatLit _ v => some (st, .ok (.float v))
    | .stringLit _ v => some (st, .ok (.str v))
    | .boolLit _ v => some (st, .ok (.bool v))
    | .ident _ name =>
      match getVariable st (lowerStr name) with
      | .ok v => some (st, .ok v)
      | .error msg => some (st, .error msg)
    | .binary pos l op r =>
      match evalExpr fuel st l with
      | none => none
      | some (st1, .error msg) => some (st1, .error msg)
      | some (st1, .ok lv) =>
        match evalExpr fuel st1 r with
        | none => none
        | some (st2, .error msg) => some (st2, .error msg)
        | some (st2, .ok rv) =>
          match op with
          | .PLUS => some (st2, addValues lv rv)
          | .MINUS => some (st2, subtractValues lv rv)
          | .STAR => some (st2, multiplyValues lv rv)
          | .SLASH => some (st2, divideValues lv rv)
          | .EQ => some (st2, .ok (.bool (equalValues lv rv)))
          | .NEQ => some (st2, .ok (.bool (!equalValues lv rv)))
          | .LT => some (st2, .ok (.bool (decide (compareValues lv rv < 0))))
          | .GT => some (st2, .ok (.bool (decide (compareValues lv rv > 0))))
          | .LTE => some (st2, .ok (.bool (decide (compareValues lv rv ≤ 0))))
          | .GTE => some (st2, .ok (.bool (decide (compareValues lv rv ≥ 0))))
          | .AND => some (st2, .ok (.bool (isTruthy lv && isTruthy rv)))
          | .OR => some (st2, .ok (.bool (isTruthy lv || isTruthy rv)))
          | _ => some (st2, .error (runtimeErrMsg pos ("unknown binary operator: " ++ tokenName op)))
    | .unary pos op operand =>
      match evalExpr fuel st operand with
      | none => none
      | some (st1, .error msg) => some (st1, .error msg)
      | some (st1, .ok v) =>
        match op with
        | .MINUS =>
          match v with
          | .int n => some (st1, .ok (.int (wrap64 (-n))))
          | .float q => some (st1, .ok (.float (-q)))
          | _ => some (st1, .error (runtimeErrMsg pos ("cannot negate " ++ goTypeName v)))
        | .NOT => some (st1, .ok (.bool (!isTruthy v)))
        | _ => some (st1, .error (runtimeErrMsg pos ("unknown unary operator: " ++ tokenName op)))
    | .call pos name argEs =>
      match evalArgs fuel st argEs with
      | none => none
      | some (st1, .error msg) => some (st1, .error msg)
      | some (st1, .ok args) =>
        match lookupAssoc st1.externalFuncs (lowerStr name) with
        | some fn => some (st1, fn args)
        | none =>
          match lookupAssoc st1.userFuncs (lowerStr name) with
          | some fn => callUserFunction fuel st1 fn args
          | none => some (st1, .error (runtimeErrMsg pos ("undefined function: " ++ name)))

/-- Argument-evaluation loop of Interpreter.evaluateCallExpr
(left-to-right, first error aborts). -/
def evalArgs : Nat → InterpState → List Expression → Option (InterpState × Except String (List Value))
  | 0, _, _ => none
  | _ + 1, st, [] => some (st, .ok [])
  | fuel + 1, st, e :: rest =>
    match evalExpr fuel st e with
    | none => none
    | some (st1, .error msg) => some (st1, .error msg)
    | some (st1, .ok v) =>
      match evalArgs fuel st1 rest with
      | none => none
      | some (st2, .error msg) => some (st2, .error msg)
      | some (st2, .ok vs) => some (st2, .ok (v :: vs))

/-- Interpreter.callUserFunction: arity check; push a scope and bind
parameters; save and reset the return flag and value (the break flag is
not saved); run the body; capture the return value; restore the saved
return state; pop the scope (a deferred pop, so it happens on the error
path too, where the return state is not restored). -/
def callUserFunction : Nat → InterpState → FuncDef → List Value → Option (InterpState × Except String Value)
  | 0, _, _, _ => none
  | fuel + 1, st, fn, args =>
    if args.length ≠ fn.params.length then
      some (st, .error ("function " ++ fn.name ++ " expects " ++ toString fn.params.length ++
        " arguments, got " ++ toString args.length))
    else
      match executeBlock fuel (callBodyState st fn args) fn.body with
      | none => none
      | some (st2, .error msg) => some (popScope st2, .error msg)
      | some (st2, .ok ()) =>
        some (popScope { st2 with returnFlag := st.returnFlag, returnValue := st.returnValue },
          .ok st2.returnValue)

/-- Interpreter.executeStatement together with the per-kind helpers
executeLetStatement, executeAssignStatement, executeIfStatement,
executeForStatement, executeReturnStatement and executePrintStatement. -/
def executeStatement : Nat → InterpState → Statement → Option (InterpState × Except String Unit)
  | 0, _, _ => none
  | fuel + 1, st, stmt =>
    match stmt with
    | .letStmt _ name value =>
      match evalExpr fuel st value with
      | none => none
      | some (st1, .error msg) => some (st1, .error msg)
      | some (st1, .ok v) =>
        some ({ st1 with scopes := updateCurrent st1.scopes (fun f => frameSet f (lowerStr name) v) }, .ok ())
    | .assign pos name op value =>
      let lname := lowerStr name
      match op with
      | .PLUS_PLUS =>
        match getVariable st lname with
        | .error msg => some (st, .error msg)
        | .ok v =>
          match addValues v (.int 1) with
          | .error _ => some (st, .error (runtimeErrMsg pos ("cannot increment " ++ goTypeName v)))
          | .ok nv => some (setVariable st lname nv, .ok ())
      | .MINUS_MINUS =>
        match getVariable st lname with
        | .error msg => some (st, .error msg)
        | .ok v =>
          match subtractValues v (.int 1) with
          | .error _ => some (st, .error (runtimeErrMsg pos ("cannot decrement " ++ goTypeName v)))
          | .ok nv => some (setVariable st lname nv, .ok ())
      | .PLUS_EQ =>
        match getVariable st lname with
        | .error msg => some (st, .error msg)
        | .ok v =>
          match value with
          | none => some (st, .error "unknown expression type: <nil>")
          | some rhs =>
            match evalExpr fuel st rhs with
            | none => none
            | some (st1, .error msg) => some (st1, .error msg)
            | some (st1, .ok addend) =>
              match addValues v addend with
              | .error _ => some (st1, .error (runtimeErrMsg pos
                  ("cannot add " ++ goTypeName addend ++ " to " ++ goTypeName v)))
              | .ok nv => some (setVariable st1 lname nv, .ok ())
      | .MINUS_EQ =>
        match getVariable st lname with
        | .error msg => some (st, .error msg)
        | .ok v =>
          match value with
          | none => some (st, .error "unknown expression type: <nil>")
          | some rhs =>
            match evalExpr fuel st rhs with
            | none => none
            | some (st1, .error msg) => some (st1, .error msg)
            | some (st1, .ok subtrahend) =>
              match subtractValues v subtrahend with
              | .error _ => some (st1, .error (runtimeErrMsg pos
                  ("cannot subtract " ++ goTypeName subtrahend ++ " from " ++ goTypeName v)))
              | .ok nv => some (setVariable st1 lname nv, .ok ())
      | .EQ =>
        match value with
        | none => some (st, .error "unknown expression type: <nil>")
        | some rhs =>
          match evalExpr fuel st rhs with
          | none => none
          | some (st1, .error msg) => some (st1, .error msg)
          | some (st1, .ok v) => some (setVariable st1 lname v, .ok ())
      | _ => some (st, .error (runtimeErrMsg pos ("unknown assignment operator: " ++ tokenName op)))
    | .ifStmt _ cond thenBlock elseIfs elseBlock =>
      match evalExpr fuel st cond with
      | none => none
      | some (st1, .error msg) => some (st1, .error msg)
      | some (st1, .ok c) =>
        if isTruthy c then executeBlock fuel st1 thenBlock
        else executeElseIfs fuel st1 elseIfs elseBlock
    | .forStmt pos varName startE stopE body =>
      match evalExpr fuel st startE with
      | none => none
      | some (st1, .error msg) => some (st1, .error msg)
      | some (st1, .ok startV) =>
        match evalExpr fuel st1 stopE with
        | none => none
        | some (st2, .error msg) => some (st2, .error msg)
        | some (st2, .ok stopV) =>
          match toInt startV with
          | none => some (st2, .error (runtimeErrMsg pos "FOR start value must be numeric"))
          | some startInt =>
            match toInt stopV with
            | none => some (st2, .error (runtimeErrMsg pos "FOR end value must be numeric"))
            | some stopInt =>
              match runForLoop fuel (pushScope st2) pos (lowerStr varName) body startInt stopInt with
              | none => none
              | some (st3, r) => some (popScope st3, r)
    | .breakStmt _ => some ({ st with breakFlag := true }, .ok ())
    | .funcStmt _ _ _ _ => some (st, .ok ())
    | .returnStmt _ value =>
      match value with
      | none => some ({ st with returnFlag := true }, .ok ())
      | some e =>
        match evalExpr fuel st e with
        | none => none
        | some (st1, .error msg) => some (st1, .error msg)
        | some (st1, .ok v) => some ({ st1 with returnValue := v, returnFlag := true }, .ok ())
    | .printStmt _ value =>
      match evalExpr fuel st value with
      | none => none
      | some (st1, .error msg) => some (st1, .error msg)
      | some (st1, .ok v) => some ({ st1 with output := st1.output ++ [v] }, .ok ())
    | .exprStmt _ e =>
      match evalExpr fuel st e with
      | none => none
      | some (st1, .error msg) => some (st1, .error msg)
      | some (st1, .ok _) => some (st1, .ok ())

/-- The elseif/else cascade of Interpreter.executeIfStatement: the first
truthy elseif condition selects its block; with none matched, a
non-empty else block runs. -/
def executeElseIfs : Nat → InterpState → List (Pos × Expression × List Statement) → List Statement → Option (InterpState × Except String Unit)
  | 0, _, _, _ => none
  | fuel + 1, st, [], elseBlock =>
    if elseBlock.length > 0 then executeBlock fuel st elseBlock else some (st, .ok ())
  | fuel + 1, st, (_, cond, block) :: rest, elseBlock =>
    match evalExpr fuel st cond with
    | none => none
    | some (st1, .error msg) => some (st1, .error msg)
    | some (st1, .ok c) =>
      if isTruthy c then executeBlock fuel st1 block
      else executeElseIfs fuel st1 rest elseBlock

/-- The iteration loop of Interpreter.executeForStatement, entered with
the loop scope already pushed: while `j ≤ stopInt`, bump the shared
iteration counter (error past the maximum, before the body), store `j`
in the loop scope, run the body, then consume a break flag (stopping) or
stop on a set return flag, else continue at `j+1`. -/
def runForLoop : Nat → InterpState → Pos → String → List Statement → Int → Int → Option (InterpState × Except String Unit)
  | 0, _, _, _, _, _, _ => none
  | fuel + 1, st, pos, varName, body, j, stopInt =>
    if j > stopInt then some (st, .ok ())
    else
      let st := { st with iterationCount := st.iterationCount + 1 }
      if st.iterationCount > st.maxIterations then
        some (st, .error (runtimeErrMsg pos ("maximum iterations exceeded (" ++
          toString st.maxIterations ++ ")")))
      else
        let st := { st with scopes := updateCurrent st.scopes (fun f => frameSet f varName (.int j)) }
        match executeBlock fuel st body with
        | none => none
        | some (st1, .error msg) => some (st1, .error msg)
        | some (st1, .ok ()) =>
          if st1.breakFlag then some ({ st1 with breakFlag := false }, .ok ())
          else if st1.returnFlag then some (st1, .ok ())
          else runForLoop fuel st1 pos varName body (wrap64 (j + 1)) stopInt

/-- Interpreter.executeBlock: run statements in order, stopping early
after any statement that set the break or return flag. -/
def executeBlock : Nat → InterpState → List Statement → Option (InterpState × Except String Unit)
  | 0, _, _ => none
  | _ + 1, st, [] => some (st, .ok ())
  | fuel + 1, st, stmt :: rest =>
    match executeStatement fuel st stmt with
    | none => none
    | some (st1, .error msg) => some (st1, .error msg)
    | some (st1, .ok ()) =>
      if st1.breakFlag || st1.returnFlag then some (st1, .ok ())
      else executeBlock fuel st1 rest

end

/-!
Entry points (`interpreter.go`).  `Interpret`, `Load` and `Validate`
first run `getOrParseProgram` (tokenize, parse, AST cache); execution is
modeled from the parsed `Program` on, which is where every claim below
lives.
-/

/-- The default iteration limit (`MaxIterations`). -/
def MaxIterations : Int := 100000

/-- NewInterpreter: empty tables, a single empty global scope, the
default iteration limit, cleared flags. -/
def NewInterpreter : InterpState :=
  { externalFuncs := []
    userFuncs := []
    scopes := [[]]
    maxIterations := MaxIterations
    iterationCount := 0
    breakFlag := false
    returnFlag := false
    returnValue := .vnil
    output := [] }

/-- Interpreter.RegisterFunction (name lowercased, overwrites). -/
def RegisterFunction (st : InterpState) (name : String) (fn : ExtFn) : InterpState :=
  { st with externalFuncs := insertAssoc st.externalFuncs (lowerStr name) fn }

/-- Interpreter.SetMaxIterations. -/
def SetMaxIterations (st : InterpState) (m : Int) : InterpState :=
  { st with maxIterations := m }

/-- First pass of Interpreter.executeProgram and the collection loop of
Interpreter.Load: each top-level FunctionStatement is registered under
its lowercased name (later definitions overwrite earlier ones). -/
def collectFuncs (prog : Program) : List (String × FuncDef) :=
  prog.foldl
    (fun m s =>
      match s with
      | .funcStmt p n ps b => insertAssoc m (lowerStr n) ⟨p, n, ps, b⟩
      | _ => m)
    []

/-- Second pass of Interpreter.executeProgram: execute the non-function
top-level statements in order, stopping after any statement that set the
return flag. -/
def execTopLevel (fuel : Nat) : InterpState → List Statement → Option (InterpState × Except String Unit)
  | st, [] => some (st, .ok ())
  | st, s :: rest =>
    match s with
    | .funcStmt _ _ _ _ => execTopLevel fuel st rest
    | _ =>
      match executeStatement fuel st s with
      | none => none
      | some (st1, .error msg) => some (st1, .error msg)
      | some (st1, .ok ()) =>
        if st1.returnFlag then some (st1, .ok ())
        else execTopLevel fuel st1 rest

/-- Interpreter.executeProgram (the body of Interpret/`run` after
parsing): reset the per-run execution state and the script-function
table, collect function definitions, then execute the top level. -/
def executeProgram (fuel : Nat) (st : InterpState) (prog : Program) : Option (InterpState × Except String Unit) :=
  let st := { st with
    iterationCount := 0
    breakFlag := false
    returnFlag := false
    returnValue := .vnil
    userFuncs := collectFuncs prog }
  execTopLevel fuel st prog

/-- Interpreter.Load, from the parsed program on: the script-function
table is rebuilt from this program's FunctionStatements and NOTHING is
executed — the scopes, flags and output are untouched (the function's
own comment: "registers function definitions without executing top-level
code"). -/
def Load (st : InterpState) (prog : Program) : InterpState :=
  { st with userFuncs := collectFuncs prog }

/-- Interpreter.Call: look the function up by lowercased name, check
arity, reset the per-call execution state, install a fresh scope stack
holding only a new global frame, bind the arguments, run the body, and
return the return slot. -/
def Call (fuel : Nat) (st : InterpState) (funcName : String) (args : List Value) : Option (InterpState × Except String Value) :=
  match lookupAssoc st.userFuncs (lowerStr funcName) with
  | none => some (st, .error ("undefined function: " ++ funcName))
  | some fn =>
    if args.length ≠ fn.params.length then
      some (st, .error ("function " ++ funcName ++ " expects " ++ toString fn.params.length ++
        " arguments, got " ++ toString args.length))
    else
      let st := { st with
        iterationCount := 0
        breakFlag := false
        returnFlag := false
        returnValue := .vnil
        scopes := [bindFrame [] fn.params args] }
      match executeBlock fuel st fn.body with
      | none => none
      | some (st1, .error msg) => some (st1, .error msg)
      | some (st1, .ok ()) => some (st1, .ok st1.returnValue)

/-- Interpreter.HasFunction. -/
def HasFunction (st : InterpState) (funcName : String) : Bool :=
  (lookupAssoc st.userFuncs (lowerStr funcName)).isSome

/-!
Concrete programs and states used by the individual claims (ASTs as the
parser produces them; positions are placeholders except where an error
message mentions them).
-/

/-- Shorthand position (line 1, column 1). -/
def p1 : Pos := ⟨1, 1⟩

/-- The Load/Call scenario of TestTopLevelVariablesPersist (and §8
scenario 6 of the spec): `counter = 0`, then `function increment():
counter = counter + 1 / return counter / endfunction`. -/
def counterProg : Program :=
  [ .assign p1 "counter" .EQ (some (.intLit p1 0))
  , .funcStmt p1 "increment" []
      [ .assign p1 "counter" .EQ (some (.binary p1 (.ident p1 "counter") .PLUS (.intLit p1 1)))
      , .returnStmt p1 (some (.ident p1 "counter")) ]
  ]

/-- Program `for i = 1 to 4 / print i / next i` (run with the maximum
set to 3 it must fail on the fourth iteration before that body runs). -/
def loopTo4Prog : Program :=
  [ .forStmt p1 "i" (.intLit p1 1) (.intLit p1 4) [.printStmt p1 (.ident p1 "i")] ]

/-- Two sequential two-iteration loops (`for i = 1 to 2 / print i /
next` twice); with the maximum set to 3 the shared counter must trip in
the second loop. -/
def twoLoopsProg : Program :=
  [ .forStmt p1 "i" (.intLit p1 1) (.intLit p1 2) [.printStmt p1 (.ident p1 "i")]
  , .forStmt ⟨4, 1⟩ "j" (.intLit p1 1) (.intLit p1 2) [.printStmt p1 (.ident p1 "j")] ]

/-- Program `for i = 2 to 4 / print i / next i`. -/
def countUpProg : Program :=
  [ .forStmt p1 "i" (.intLit p1 2) (.intLit p1 4) [.printStmt p1 (.ident p1 "i")] ]

/-- Nested loops where the inner loop breaks at j = 2:
`for i = 1 to 2 / for j = 1 to 5 / if j = 2 then break endif /
print i*10+j / next j / next i`. -/
def nestedBreakProg : Program :=
  [ .forStmt p1 "i" (.intLit p1 1) (.intLit p1 2)
      [ .forStmt p1 "j" (.intLit p1 1) (.intLit p1 5)
          [ .ifStmt p1 (.binary p1 (.ident p1 "j") .EQ (.intLit p1 2))
              [.breakStmt p1] [] []
          , .printStmt p1 (.binary p1
              (.binary p1 (.ident p1 "i") .STAR (.intLit p1 10)) .PLUS (.ident p1 "j")) ] ] ]

/-- `function f(): for i = 1 to 5 / return i / next / return 99 /
endfunction` — a return from inside the loop must exit the function with
value 1, skipping the statement after the loop. -/
def returnInLoopProg : Program :=
  [ .funcStmt p1 "f" []
      [ .forStmt p1 "i" (.intLit p1 1) (.intLit p1 5)
          [ .returnStmt p1 (some (.ident p1 "i")) ]
      , .returnStmt p1 (some (.intLit p1 99)) ] ]

/-- `function f(): break endfunction` followed by
`for i = 1 to 3 / f() / print i / next i` and `print "done"`: the break
flag set inside `f` leaks out of the call, aborts the rest of the loop
body and terminates the loop. -/
def breakInFuncProg : Program :=
  [ .funcStmt p1 "f" [] [.breakStmt p1]
  , .forStmt p1 "i" (.intLit p1 1) (.intLit p1 3)
      [ .exprStmt p1 (.call p1 "f" []), .printStmt p1 (.ident p1 "i") ]
  , .printStmt p1 (.stringLit p1 "done") ]

/-- `function e(): print "e" / return 2 / endfunction`, then
`let x = 10`, `x += e()`, `print x`: the side effect shows the RHS of
`+=` is evaluated exactly once. -/
def plusEqOnceProg : Program :=
  [ .funcStmt p1 "e" [] [ .printStmt p1 (.stringLit p1 "e")
                        , .returnStmt p1 (some (.intLit p1 2)) ]
  , .letStmt p1 "x" (.intLit p1 10)
  , .assign p1 "x" .PLUS_EQ (some (.call p1 "e" []))
  , .printStmt p1 (.ident p1 "x") ]

/-- `function f(): endfunction`, `print f() = f()`, `print f() <> f()`:
both calls yield the absence sentinel. -/
def nilEqProg : Program :=
  [ .funcStmt p1 "f" [] []
  , .printStmt p1 (.binary p1 (.call p1 "f" []) .EQ (.call p1 "f" []))
  , .printStmt p1 (.binary p1 (.call p1 "f" []) .NEQ (.call p1 "f" [])) ]

/-- A state whose global scope binds `x` to the string "abc". -/
def strVarState : InterpState :=
  { NewInterpreter with scopes := [[("x", .str "abc")]] }

/-- A state whose global scope binds `x` to the boolean true. -/
def boolVarState : InterpState :=
  { NewInterpreter with scopes := [[("x", .bool true)]] }

/-- The function `f` with body `break` as a table entry. -/
def fnBreak : FuncDef := ⟨p1, "f", [], [.breakStmt p1]⟩

/-- The state after one loop iteration whose body was a lone `break`:
counter bumped, loop variable stored, break flag set. -/
def breakProbeState : InterpState :=
  { NewInterpreter with iterationCount := 1, scopes := [[("i", .int 1)]], breakFlag := true }

/-- The state at the end of `fnBreak`'s body when called on the fresh
interpreter: one pushed (empty) scope and the break flag set. -/
def breakFnOutState : InterpState :=
  { NewInterpreter with scopes := [[], []], breakFlag := true }

/-- A state whose iteration counter has already reached the default
maximum. -/
def maxedState : InterpState :=
  { NewInterpreter with iterationCount := 100000 }

/-!
Helper lemmas.
-/

/-- Popping the scope pushed onto a non-empty scope stack restores the
stack. -/
theorem popScope_pushScope (st : InterpState) (h : st.scopes ≠ []) :
    popScope (pushScope st) = st := by
  have h1 : 0 < st.scopes.length := List.length_pos.mpr h
  unfold popScope pushScope
  rw [if_pos (by simp; omega)]
  simp

/-- The break flag survives a popScope unchanged. -/
theorem popScope_breakFlag (st : InterpState) : (popScope st).breakFlag = st.breakFlag := by
  unfold popScope
  split <;> rfl

/-- The return flag survives a popScope unchanged. -/
theorem popScope_returnFlag (st : InterpState) : (popScope st).returnFlag = st.returnFlag := by
  unfold popScope
  split <;> rfl

/-- Division with a right operand whose numeric coercion is zero is an
error for every left operand. -/
theorem divideValues_zero (l r : Value) (h : toFloat64 r = some 0) :
    ∃ msg, divideValues l r = .error msg := by
  cases l <;> cases r <;> simp_all [divideValues, toFloat64]

/-!
Claims.
-/

/-- Claim C1 (code bug): the claim says `load(source)` also executes all
non-function top-level statements against the current global scope, so
`counter = 0` becomes an observable global.  The code's Load only
rebuilds the script-function table: after loading the counter program
the global scope is still empty, nothing was printed, `increment` is
registered, and calling it fails with "undefined variable: counter" —
exactly the call the repo's own tests TestLoadExecutesTopLevel and
TestTopLevelVariablesPersist expect to succeed. -/
theorem C1_load_skips_top_level :
    (Load NewInterpreter counterProg).scopes = [[]] ∧
    (Load NewInterpreter counterProg).output = [] ∧
    HasFunction (Load NewInterpreter counterProg) "increment" = true ∧
    (Call 60 (Load NewInterpreter counterProg) "increment" []).map (fun p => p.2)
      = some (.error "undefined variable: counter") := by
  refine ⟨rfl, rfl, by decide, ?_⟩
  simp [Call, Load, collectFuncs, NewInterpreter, lowerStr, lookupAssoc, insertAssoc,
    executeBlock, executeStatement, evalExpr, getVariable, lookupFrames, frameGet,
    bindFrame, MaxIterations]

/-- Claim C10: the `=` operator returns false whenever either operand is
the absence sentinel, including two sentinels, and `<>` between two
sentinels is true; a program comparing two returnless function calls
prints false for `=` and true for `<>`. -/
theorem C10_nil_equality :
    equalValues .vnil .vnil = false ∧
    (∀ v, equalValues .vnil v = false ∧ equalValues v .vnil = false) ∧
    (executeProgram 120 NewInterpreter nilEqProg).map (fun p => (p.1.output, p.2))
      = some ([.bool false, .bool true], .ok ()) := by
  refine ⟨rfl, fun v => ⟨rfl, by cases v <;> rfl⟩, ?_⟩
  simp [executeProgram, execTopLevel, executeStatement, executeBlock, evalExpr, evalArgs,
    callUserFunction, callBodyState, bindFrame, collectFuncs, NewInterpreter, lowerStr,
    pushScope, popScope, updateCurrent, frameSet, frameGet, getVariable, lookupFrames,
    lookupAssoc, insertAssoc, equalValues, MaxIterations, nilEqProg, p1]

/-- Claim C8: dividing by a right operand equal to integer 0 or float
0.0 is always a runtime error and never yields a value, both at the
value-operation level and for a full `/` expression whose right operand
evaluates to zero. -/
theorem C8_division_by_zero :
    (∀ l, ∃ msg, divideValues l (.int 0) = .error msg) ∧
    (∀ l, ∃ msg, divideValues l (.float 0) = .error msg) ∧
    (∀ a : Int, divideValues (.int a) (.int 0) = .error "division by zero") ∧
    (∀ q : Rat, divideValues (.float q) (.float 0) = .error "division by zero") ∧
    (∀ fuel st st1 st2 pos e1 e2 v1 v2,
      evalExpr fuel st e1 = some (st1, .ok v1) →
      evalExpr fuel st1 e2 = some (st2, .ok v2) →
      toFloat64 v2 = some 0 →
      ∃ msg, evalExpr (fuel + 1) st (.binary pos e1 .SLASH e2) = some (st2, .error msg)) := by
  refine ⟨fun l => divideValues_zero l _ rfl, fun l => divideValues_zero l _ rfl,
    fun a => by simp [divideValues, toFloat64], fun q => by simp [divideValues, toFloat64],
    fun fuel st st1 st2 pos e1 e2 v1 v2 h1 h2 h0 => ?_⟩
  obtain ⟨msg, hmsg⟩ := divideValues_zero v1 v2 h0
  exact ⟨msg, by simp [evalExpr, h1, h2, hmsg]⟩

/-- Claim C7: binary `+` with a string operand concatenates (converting
the other side to string, left-string case first); `+ - * /` on two
integers stay integer with `/` truncating toward zero, and produce a
float whenever either operand is a float. -/
theorem C7_binary_arithmetic_rules :
    (∀ s r, addValues (.str s) r = .ok (.str (s ++ valueToString r))) ∧
    (∀ l s, addValues l (.str s) = .ok (.str (valueToString l ++ s))) ∧
    (∀ a b : Int,
      addValues (.int a) (.int b) = .ok (.int (wrap64 (a + b))) ∧
      subtractValues (.int a) (.int b) = .ok (.int (wrap64 (a - b))) ∧
      multiplyValues (.int a) (.int b) = .ok (.int (wrap64 (a * b))) ∧
      (b ≠ 0 → divideValues (.int a) (.int b) = .ok (.int (wrap64 (goIntDiv a b))))) ∧
    (∀ (a : Int) (p q : Rat),
      addValues (.float p) (.float q) = .ok (.float (p + q)) ∧
      addValues (.int a) (.float q) = .ok (.float (a + q)) ∧
      addValues (.float p) (.int a) = .ok (.float (p + a)) ∧
      subtractValues (.float p) (.float q) = .ok (.float (p - q)) ∧
      subtractValues (.int a) (.float q) = .ok (.float (a - q)) ∧
      subtractValues (.float p) (.int a) = .ok (.float (p - a)) ∧
      multiplyValues (.float p) (.float q) = .ok (.float (p * q)) ∧
      multiplyValues (.int a) (.float q) = .ok (.float (a * q)) ∧
      multiplyValues (.float p) (.int a) = .ok (.float (p * a)) ∧
      (q ≠ 0 → divideValues (.float p) (.float q) = .ok (.float (p / q)) ∧
               divideValues (.int a) (.float q) = .ok (.float (a / q))) ∧
      (a ≠ 0 → divideValues (.float p) (.int a) = .ok (.float (p / a)))) ∧
    (goIntDiv 7 2 = 3 ∧ goIntDiv (-7) 2 = -3 ∧ goIntDiv 7 (-2) = -3 ∧ goIntDiv (-7) (-2) = 3) := by
  refine ⟨fun s r => by cases r <;> rfl, fun l s => by cases l <;> simp [addValues, valueToString], ?_, ?_, ?_⟩
  · intro a b
    refine ⟨by simp [addValues, toFloat64], by simp [subtractValues, toFloat64],
      by simp [multiplyValues, toFloat64], fun hb => ?_⟩
    have : ((b : Rat)) ≠ 0 := by exact_mod_cast hb
    simp [divideValues, toFloat64, this]
  · intro a p q
    refine ⟨by simp [addValues, toFloat64], by simp [addValues, toFloat64],
      by simp [addValues, toFloat64], by simp [subtractValues, toFloat64],
      by simp [subtractValues, toFloat64], by simp [subtractValues, toFloat64],
      by simp [multiplyValues, toFloat64], by simp [multiplyValues, toFloat64],
      by simp [multiplyValues, toFloat64], fun hq => ?_, fun ha => ?_⟩
    · exact ⟨by simp [divideValues, toFloat64, hq], by simp [divideValues, toFloat64, hq]⟩
    · have : ((a : Rat)) ≠ 0 := by exact_mod_cast ha
      simp [divideValues, toFloat64, this]
  · exact ⟨by decide, by decide, by decide, by decide⟩

/-- Witness for C8: `1 / 0` at the expression level errors. -/
theorem C8_division_by_zero_witness :
    ∃ msg, evalExpr 2 NewInterpreter
      (.binary p1 (.intLit p1 1) .SLASH (.intLit p1 0)) = some (NewInterpreter, .error msg) :=
  C8_division_by_zero.2.2.2.2 1 NewInterpreter NewInterpreter NewInterpreter p1
    (.intLit p1 1) (.intLit p1 0) (.int 1) (.int 0) rfl rfl rfl

/-- Claim C3 counterexample: the claim says any of `+= -= ++ --` applied
to a non-numeric current value is a runtime error, but `x++` with
`x = "abc"` succeeds and sets `x` to `"abc1"` (string concatenation via
addValues). -/
theorem C3_increment_on_string_counterexample :
    (executeStatement 5 strVarState (.assign p1 "x" .PLUS_PLUS none)).map
        (fun p => (lookupFrames p.1.scopes "x", p.2))
      = some (some (.str "abc1"), .ok ()) := by
  simp only [executeStatement, strVarState, NewInterpreter, lowerStr, getVariable,
    lookupFrames, frameGet, addValues, valueToString, setVariable, setInFirst, frameSet,
    updateCurrent, p1, MaxIterations]
  rfl

/-- Claim C3 as amended: `--` and `-=` on a non-numeric current value
are runtime errors, and so is `++` on a boolean or absent current value
(its addend is the non-string integer 1), while `++` on a string current
value appends "1".  `+=` combines through addValues, whose string cases
take precedence: with a string current value it appends the string
conversion of the RHS, and with a string RHS it concatenates onto the
string conversion of any current value — so `x = true` followed by
`x += "s"` succeeds with "trues" — and only when neither side is a
string does a non-numeric current value make `+=` a runtime error.
`++`/`--` add or subtract integer 1 from a numeric current value, and
the RHS of `+=` is evaluated exactly once (its side effect happens
once). -/
theorem C3_compound_assignment_amended :
    (∀ fuel pos st name v,
      getVariable st (lowerStr name) = .ok v → toFloat64 v = none →
      executeStatement (fuel + 1) st (.assign pos name .MINUS_MINUS none)
        = some (st, .error (runtimeErrMsg pos ("cannot decrement " ++ goTypeName v)))) ∧
    (∀ fuel pos st st1 name v rhs w,
      getVariable st (lowerStr name) = .ok v → toFloat64 v = none →
      evalExpr fuel st rhs = some (st1, .ok w) →
      executeStatement (fuel + 1) st (.assign pos name .MINUS_EQ (some rhs))
        = some (st1, .error (runtimeErrMsg pos
            ("cannot subtract " ++ goTypeName w ++ " from " ++ goTypeName v)))) ∧
    (∀ fuel pos st name b,
      getVariable st (lowerStr name) = .ok (.bool b) →
      executeStatement (fuel + 1) st (.assign pos name .PLUS_PLUS none)
        = some (st, .error (runtimeErrMsg pos "cannot increment bool"))) ∧
    (∀ fuel pos st name,
      getVariable st (lowerStr name) = .ok .vnil →
      executeStatement (fuel + 1) st (.assign pos name .PLUS_PLUS none)
        = some (st, .error (runtimeErrMsg pos "cannot increment <nil>"))) ∧
    (∀ fuel pos st name s,
      getVariable st (lowerStr name) = .ok (.str s) →
      executeStatement (fuel + 1) st (.assign pos name .PLUS_PLUS none)
        = some (setVariable st (lowerStr name) (.str (s ++ "1")), .ok ())) ∧
    (∀ fuel pos st name n,
      getVariable st (lowerStr name) = .ok (.int n) →
      executeStatement (fuel + 1) st (.assign pos name .PLUS_PLUS none)
        = some (setVariable st (lowerStr name) (.int (wrap64 (n + 1))), .ok ()) ∧
      executeStatement (fuel + 1) st (.assign pos name .MINUS_MINUS none)
        = some (setVariable st (lowerStr name) (.int (wrap64 (n - 1))), .ok ())) ∧
    (∀ fuel pos st name q,
      getVariable st (lowerStr name) = .ok (.float q) →
      executeStatement (fuel + 1) st (.assign pos name .PLUS_PLUS none)
        = some (setVariable st (lowerStr name) (.float (q + 1)), .ok ()) ∧
      executeStatement (fuel + 1) st (.assign pos name .MINUS_MINUS none)
        = some (setVariable st (lowerStr name) (.float (q - 1)), .ok ())) ∧
    (∀ fuel pos st st1 name v rhs w,
      getVariable st (lowerStr name) = .ok v →
      toFloat64 v = none → (∀ t, v ≠ .str t) → (∀ t, w ≠ .str t) →
      evalExpr fuel st rhs = some (st1, .ok w) →
      executeStatement (fuel + 1) st (.assign pos name .PLUS_EQ (some rhs))
        = some (st1, .error (runtimeErrMsg pos
            ("cannot add " ++ goTypeName w ++ " to " ++ goTypeName v)))) ∧
    (∀ fuel pos st st1 name v rhs s,
      getVariable st (lowerStr name) = .ok v →
      evalExpr fuel st rhs = some (st1, .ok (.str s)) →
      executeStatement (fuel + 1) st (.assign pos name .PLUS_EQ (some rhs))
        = some (setVariable st1 (lowerStr name) (.str (valueToString v ++ s)), .ok ())) ∧
    (∀ fuel pos st st1 name s rhs w,
      getVariable st (lowerStr name) = .ok (.str s) →
      evalExpr fuel st rhs = some (st1, .ok w) →
      executeStatement (fuel + 1) st (.assign pos name .PLUS_EQ (some rhs))
        = some (setVariable st1 (lowerStr name) (.str (s ++ valueToString w)), .ok ())) ∧
    (executeProgram 120 NewInterpreter plusEqOnceProg).map (fun p => (p.1.output, p.2))
      = some ([.str "e", .int 12], .ok ()) := by
  refine ⟨?_, ?_, ?_, ?_, ?_, ?_, ?_, ?_, ?_, ?_, ?_⟩
  · intro fuel pos st name v hget hnum
    simp [executeStatement, hget, subtractValues, hnum]
  · intro fuel pos st st1 name v rhs w hget hnum heval
    simp [executeStatement, hget, heval, subtractValues, hnum]
  · intro fuel pos st name b hget
    simp [executeStatement, hget, addValues, toFloat64, goTypeName]
  · intro fuel pos st name hget
    simp [executeStatement, hget, addValues, toFloat64, goTypeName]
  · intro fuel pos st name s hget
    simp only [executeStatement, hget, addValues, valueToString]
    rfl
  · intro fuel pos st name n hget
    constructor <;> simp [executeStatement, hget, addValues, subtractValues, toFloat64]
  · intro fuel pos st name q hget
    constructor <;> simp [executeStatement, hget, addValues, subtractValues, toFloat64]
  · intro fuel pos st st1 name v rhs w hget hnum hvstr hwstr heval
    cases v <;> first
      | exact absurd rfl (hvstr _)
      | exact Option.noConfusion hnum
      | (cases w <;> first
          | exact absurd rfl (hwstr _)
          | simp [executeStatement, hget, heval, addValues, toFloat64, goTypeName])
  · intro fuel pos st st1 name v rhs s hget heval
    cases v <;> simp [executeStatement, hget, heval, addValues, valueToString]
  · intro fuel pos st st1 name s rhs w hget heval
    simp only [executeStatement, hget, heval]
    cases w <;> rfl
  · simp [executeProgram, execTopLevel, executeStatement, executeBlock, evalExpr, evalArgs,
      callUserFunction, callBodyState, bindFrame, collectFuncs, NewInterpreter, lowerStr,
      pushScope, popScope, updateCurrent, frameSet, frameGet, getVariable, setVariable,
      setInFirst, lookupFrames, lookupAssoc, insertAssoc, addValues, toFloat64, wrap64,
      MaxIterations, plusEqOnceProg, p1, Int.emod]

/-- Witness for C3's amended theorem: `x--` and `x++` at the concrete
state binding x to "abc" (decrement errors, increment concatenates), and
`x += "s"` at the state binding x to true (succeeds with "trues"). -/
theorem C3_compound_assignment_amended_witness :
    executeStatement 1 strVarState (.assign p1 "x" .MINUS_MINUS none)
      = some (strVarState, .error (runtimeErrMsg p1 ("cannot decrement " ++ goTypeName (.str "abc")))) ∧
    executeStatement 1 strVarState (.assign p1 "x" .PLUS_PLUS none)
      = some (setVariable strVarState (lowerStr "x") (.str ("abc" ++ "1")), .ok ()) ∧
    executeStatement 2 boolVarState (.assign p1 "x" .PLUS_EQ (some (.stringLit p1 "s")))
      = some (setVariable boolVarState (lowerStr "x")
          (.str (valueToString (.bool true) ++ "s")), .ok ()) :=
  ⟨C3_compound_assignment_amended.1 0 p1 strVarState "x" (.str "abc") rfl rfl,
   C3_compound_assignment_amended.2.2.2.2.1 0 p1 strVarState "x" "abc" rfl,
   C3_compound_assignment_amended.2.2.2.2.2.2.2.2.1 1 p1 boolVarState boolVarState "x"
     (.bool true) (.stringLit p1 "s") "s" rfl rfl⟩

/-- Claim C4 counterexample: the claim says a string-literal token's
Value equals the literal's source contents byte for byte (escapes
aside), and a multi-byte identifier's lexeme equals its source
spelling.  Scanning the two source bytes 0xC3 0xA9 ("é") yields the four
bytes 0xC3 0x83 0xC2 0xA9 ("Ã©"), and identifier scanning of the bytes
of "af" followed by 0xC3 0xA9 stops between the two bytes of "é". -/
theorem C4_utf8_counterexample :
    scanString [195, 169, 34] = some ([195, 131, 194, 169], []) ∧
    ([195, 131, 194, 169] : List Nat) ≠ [195, 169] ∧
    scanIdentRest [97, 102, 195, 169] = ([97, 102, 195], [169]) :=
  ⟨by decide, by decide, by decide⟩

/-- Claim C4 as amended: lexing reads one byte at a time as a rune.  A
string literal whose content bytes are all ASCII is preserved with only
the five escapes rewritten (scanString agrees with the spec's
byte-preserving scanner), but each non-ASCII content byte b is
re-encoded as the two-byte UTF-8 encoding of code point b, so multi-byte
UTF-8 content is transcoded rather than preserved.  An identifier's
lexeme is exactly the raw consumed byte range of the source, but byte-wise
scanning can stop inside a multi-byte character. -/
theorem C4_lexing_bytes_amended :
    (∀ input, (∀ b ∈ input, b < 128) → scanString input = scanStringSpec input) ∧
    (∀ b rest, 128 ≤ b → b < 256 →
      scanString (b :: 34 :: rest) = some ([192 + b / 64, 128 + b % 64], rest)) ∧
    (∀ input, (scanIdentRest input).1 ++ (scanIdentRest input).2 = input) := by
  refine ⟨?_, ?_, ?_⟩
  · suffices h : ∀ n input, input.length ≤ n → (∀ b ∈ input, b < 128) →
        scanString input = scanStringSpec input from
      fun input ha => h input.length input le_rfl ha
    intro n
    induction n with
    | zero =>
      intro input hl _
      cases input with
      | nil => rfl
      | cons b rest => simp at hl
    | succ n ih =>
      intro input hl ha
      cases input with
      | nil => rfl
      | cons b rest =>
        have hb : b < 128 := ha b (by simp)
        rw [scanString.eq_def, scanStringSpec.eq_def]
        dsimp only
        split_ifs with h10 h34 h92
        · rfl
        · rfl
        · cases rest with
          | nil => rfl
          | cons e rest2 =>
            have he : e < 128 := ha e (by simp)
            have hesc : escapeByte e < 128 := by
              unfold escapeByte
              split_ifs <;> omega
            have hrec := ih rest2 (by simp at hl; omega)
              (fun x hx => ha x (by simp [hx]))
            dsimp only
            rw [hrec]
            cases hspec : scanStringSpec rest2 with
            | none => rfl
            | some p => simp [utf8EncodeRune, hesc]
        · have hrec := ih rest (by simp at hl; omega)
            (fun x hx => ha x (by simp [hx]))
          rw [hrec]
          cases hspec : scanStringSpec rest with
          | none => rfl
          | some p => simp [utf8EncodeRune, hb]
  · intro b rest hb1 hb2
    have h10 : ¬ b = 10 := by omega
    have h34 : ¬ b = 34 := by omega
    have h92 : ¬ b = 92 := by omega
    have hge : ¬ b < 128 := by omega
    have hlt : b < 2048 := by omega
    have hnest : scanString (34 :: rest) = some ([], rest) := by
      rw [scanString.eq_def]
      simp
    rw [scanString.eq_def]
    simp [h10, h34, h92, hnest, utf8EncodeRune, hge, hlt]
  · intro input
    induction input with
    | nil => rfl
    | cons b rest ih =>
      simp only [scanIdentRest]
      split
      · simpa using ih
      · rfl

/-- Witness for C4's amended theorem: the ASCII content `\n"` is
preserved with the escape rewritten; the non-ASCII byte 0xC3 is
re-encoded; the identifier bytes of "x1_" round-trip. -/
theorem C4_lexing_bytes_amended_witness :
    scanString [92, 110, 34] = scanStringSpec [92, 110, 34] ∧
    scanString [195, 34] = some ([192 + 195 / 64, 128 + 195 % 64], []) ∧
    (scanIdentRest [120, 49, 95]).1 ++ (scanIdentRest [120, 49, 95]).2 = [120, 49, 95] :=
  ⟨C4_lexing_bytes_amended.1 [92, 110, 34] (by decide),
   C4_lexing_bytes_amended.2.1 195 [] (by decide) (by decide),
   C4_lexing_bytes_amended.2.2 [120, 49, 95]⟩

/-- Witness for C7: the division clauses at 7/2 and 7.0/2.0. -/
theorem C7_binary_arithmetic_rules_witness :
    divideValues (.int 7) (.int 2) = .ok (.int 3) ∧
    divideValues (.float 7) (.float 2) = .ok (.float (7 / 2 : Rat)) := by
  have h := C7_binary_arithmetic_rules
  refine ⟨?_, ?_⟩
  · have := (h.2.2.1 7 2).2.2.2 (by decide)
    simpa [wrap64, goIntDiv] using this
  · exact ((h.2.2.2.1 0 7 2).2.2.2.2.2.2.2.2.2.1 (by norm_num)).1

/-- Claim C5: a `for` loop evaluates its start and end expressions once
each before the first iteration and coerces them to integer (runtime
error naming the non-numeric bound otherwise); the variable starts at
the start value and the body runs while the variable is ≤ the end
value, stepping by 1 — in particular zero times when start > end, in
which case the state after the loop is exactly the state after
evaluating the two bounds. -/
theorem C5_for_loop_semantics :
    (∀ fuel st st1 st2 pos varName startE stopE body sv ev,
      evalExpr fuel st startE = some (st1, .ok sv) →
      evalExpr fuel st1 stopE = some (st2, .ok ev) →
      toInt sv = none →
      executeStatement (fuel + 1) st (.forStmt pos varName startE stopE body)
        = some (st2, .error (runtimeErrMsg pos "FOR start value must be numeric"))) ∧
    (∀ fuel st st1 st2 pos varName startE stopE body sv ev si,
      evalExpr fuel st startE = some (st1, .ok sv) →
      evalExpr fuel st1 stopE = some (st2, .ok ev) →
      toInt sv = some si → toInt ev = none →
      executeStatement (fuel + 1) st (.forStmt pos varName startE stopE body)
        = some (st2, .error (runtimeErrMsg pos "FOR end value must be numeric"))) ∧
    (∀ fuel st st1 st2 pos varName startE stopE body sv ev si ei,
      evalExpr fuel st startE = some (st1, .ok sv) →
      evalExpr fuel st1 stopE = some (st2, .ok ev) →
      toInt sv = some si → toInt ev = some ei → ei < si →
      st2.scopes ≠ [] →
      executeStatement (fuel + 1) st (.forStmt pos varName startE stopE body)
        = some (st2, .ok ())) ∧
    (executeProgram 60 NewInterpreter countUpProg).map (fun p => (p.1.output, p.2))
      = some ([.int 2, .int 3, .int 4], .ok ()) := by
  refine ⟨?_, ?_, ?_, ?_⟩
  · intro fuel st st1 st2 pos varName startE stopE body sv ev h1 h2 h3
    simp [executeStatement, h1, h2, h3]
  · intro fuel st st1 st2 pos varName startE stopE body sv ev si h1 h2 h3 h4
    simp [executeStatement, h1, h2, h3, h4]
  · intro fuel st st1 st2 pos varName startE stopE body sv ev si ei h1 h2 h3 h4 hlt hne
    cases fuel with
    | zero => exact absurd h1 (by simp [evalExpr])
    | succ f =>
      simp only [executeStatement, h1, h2, h3, h4]
      simp only [runForLoop]
      rw [if_pos (by omega : si > ei)]
      simp [popScope_pushScope st2 hne]
  · simp [executeProgram, execTopLevel, executeStatement, executeBlock, evalExpr,
      collectFuncs, NewInterpreter, lowerStr, pushScope, popScope, updateCurrent, frameSet,
      frameGet, getVariable, lookupFrames, lookupAssoc, toInt, wrap64, MaxIterations,
      runForLoop, countUpProg, p1, Int.emod]

/-- Witness for C5: `for i = 5 to 3` over an empty body succeeds without
touching the state. -/
theorem C5_for_loop_semantics_witness :
    executeStatement 3 NewInterpreter (.forStmt p1 "i" (.intLit p1 5) (.intLit p1 3) [])
      = some (NewInterpreter, .ok ()) :=
  C5_for_loop_semantics.2.2.1 2 NewInterpreter NewInterpreter NewInterpreter p1 "i"
    (.intLit p1 5) (.intLit p1 3) [] (.int 5) (.int 3) 5 3 rfl rfl rfl rfl (by decide)
    (by decide)

/-- Claim C6: when a loop-body run ends with the break flag set, the
loop stops and clears the flag (so only the innermost loop exits); when
it ends with the return flag set (and no break), the loop stops leaving
the flag set for the enclosing blocks and callers.  Concretely, a break
in a nested inner loop lets the outer loop continue, and a return inside
a loop exits the whole function with that value. -/
theorem C6_break_and_return_in_loops :
    (∀ fuel st st2 pos varName body j stopInt,
      j ≤ stopInt →
      st.iterationCount + 1 ≤ st.maxIterations →
      executeBlock fuel
          { st with
            iterationCount := st.iterationCount + 1,
            scopes := updateCurrent st.scopes (fun f => frameSet f varName (.int j)) } body
        = some (st2, .ok ()) →
      st2.breakFlag = true →
      runForLoop (fuel + 1) st pos varName body j stopInt
        = some ({ st2 with breakFlag := false }, .ok ())) ∧
    (∀ fuel st st2 pos varName body j stopInt,
      j ≤ stopInt →
      st.iterationCount + 1 ≤ st.maxIterations →
      executeBlock fuel
          { st with
            iterationCount := st.iterationCount + 1,
            scopes := updateCurrent st.scopes (fun f => frameSet f varName (.int j)) } body
        = some (st2, .ok ()) →
      st2.breakFlag = false →
      st2.returnFlag = true →
      runForLoop (fuel + 1) st pos varName body j stopInt = some (st2, .ok ())) ∧
    (executeProgram 200 NewInterpreter nestedBreakProg).map (fun p => (p.1.output, p.2))
      = some ([.int 11, .int 21], .ok ()) ∧
    (Call 60 (Load NewInterpreter returnInLoopProg) "f" []).map (fun p => p.2)
      = some (.ok (.int 1)) := by
  refine ⟨?_, ?_, ?_, ?_⟩
  · intro fuel st st2 pos varName body j stopInt hj hmax hblock hbrk
    simp only [runForLoop]
    rw [if_neg (by omega : ¬ j > stopInt)]
    rw [if_neg (by omega : ¬ st.iterationCount + 1 > st.maxIterations)]
    rw [hblock]
    simp [hbrk]
  · intro fuel st st2 pos varName body j stopInt hj hmax hblock hbrk hret
    simp only [runForLoop]
    rw [if_neg (by omega : ¬ j > stopInt)]
    rw [if_neg (by omega : ¬ st.iterationCount + 1 > st.maxIterations)]
    rw [hblock]
    simp [hbrk, hret]
  · simp [executeProgram, execTopLevel, executeStatement, executeBlock, executeElseIfs,
      evalExpr, collectFuncs, NewInterpreter, lowerStr, pushScope, popScope, updateCurrent,
      frameSet, frameGet, getVariable, lookupFrames, lookupAssoc, toInt, addValues,
      multiplyValues, toFloat64, equalValues, isTruthy, wrap64, MaxIterations, runForLoop,
      nestedBreakProg, p1, Int.emod]
  · simp [Call, Load, collectFuncs, NewInterpreter, lowerStr, lookupAssoc, insertAssoc,
      executeBlock, executeStatement, evalExpr, getVariable, lookupFrames, frameGet,
      bindFrame, toInt, pushScope, popScope, updateCurrent, frameSet, wrap64,
      MaxIterations, runForLoop, returnInLoopProg, p1, Int.emod]

/-- Witness for C6: one iteration of a loop whose body is a lone
`break` exits with the flag cleared. -/
theorem C6_break_and_return_in_loops_witness :
    runForLoop 3 NewInterpreter p1 "i" [.breakStmt p1] 1 3
      = some ({ breakProbeState with breakFlag := false }, .ok ()) :=
  C6_break_and_return_in_loops.1 2 NewInterpreter breakProbeState p1 "i" [.breakStmt p1] 1 3
    (by decide) (by decide) (by rfl) rfl

/-- Claim C9: callUserFunction saves and restores only the return flag
and value: a break flag set by the function body is still set after the
call returns (the popped scope does not touch it), so a script function
whose body is `break` aborts the rest of the calling block and, when
called inside a for loop, ends that loop — concretely the program skips
every `print i` and prints only "done". -/
theorem C9_break_flag_leaks_through_calls :
    (∀ fuel st fn args st2,
      args.length = fn.params.length →
      executeBlock fuel (callBodyState st fn args) fn.body = some (st2, .ok ()) →
      callUserFunction (fuel + 1) st fn args
        = some (popScope { st2 with returnFlag := st.returnFlag, returnValue := st.returnValue },
            .ok st2.returnValue)) ∧
    (∀ st0 st2 : InterpState,
      (popScope { st2 with returnFlag := st0.returnFlag, returnValue := st0.returnValue }).breakFlag
        = st2.breakFlag ∧
      (popScope { st2 with returnFlag := st0.returnFlag, returnValue := st0.returnValue }).returnFlag
        = st0.returnFlag) ∧
    (executeProgram 200 NewInterpreter breakInFuncProg).map (fun p => (p.1.output, p.2))
      = some ([.str "done"], .ok ()) := by
  refine ⟨?_, ?_, ?_⟩
  · intro fuel st fn args st2 har hblock
    simp only [callUserFunction]
    rw [if_neg (not_not_intro har)]
    rw [hblock]
  · intro st0 st2
    exact ⟨by rw [popScope_breakFlag], by rw [popScope_returnFlag]⟩
  · simp [executeProgram, execTopLevel, executeStatement, executeBlock, evalExpr, evalArgs,
      callUserFunction, callBodyState, bindFrame, collectFuncs, NewInterpreter, lowerStr,
      pushScope, popScope, updateCurrent, frameSet, frameGet, getVariable, lookupFrames,
      lookupAssoc, insertAssoc, toInt, wrap64, MaxIterations, runForLoop,
      breakInFuncProg, p1, Int.emod]

/-- Witness for C9: calling the break-bodied function from the fresh
interpreter returns the sentinel and leaves the break flag set. -/
theorem C9_break_flag_leaks_through_calls_witness :
    callUserFunction 3 NewInterpreter fnBreak []
      = some (popScope { breakFnOutState with
          returnFlag := NewInterpreter.returnFlag,
          returnValue := NewInterpreter.returnValue }, .ok breakFnOutState.returnValue) ∧
    (popScope { breakFnOutState with
        returnFlag := NewInterpreter.returnFlag,
        returnValue := NewInterpreter.returnValue }).breakFlag = true :=
  ⟨C9_break_flag_leaks_through_calls.1 2 NewInterpreter fnBreak [] breakFnOutState rfl (by rfl),
   (C9_break_flag_leaks_through_calls.2.1 NewInterpreter breakFnOutState).1⟩

/-- Claim C2: one counter, shared by every `for` loop of an execution,
is bumped at the top of every iteration; the default maximum is 100000;
once the counter would pass the maximum the loop raises a runtime error
naming the loop's position before running the body again; the counter is
ignored (reset to zero) at the start of run and of a (successful-lookup)
call.  Concretely with maximum 3, `for i = 1 to 4` prints 1,2,3 and then
errors, and two sequential 2-iteration loops trip the shared counter in
the second loop. -/
theorem C2_iteration_bound :
    (MaxIterations = 100000 ∧ NewInterpreter.maxIterations = 100000) ∧
    (∀ fuel st pos varName body j stopInt,
      j ≤ stopInt →
      st.maxIterations ≤ st.iterationCount →
      runForLoop (fuel + 1) st pos varName body j stopInt
        = some ({ st with iterationCount := st.iterationCount + 1 },
            .error (runtimeErrMsg pos ("maximum iterations exceeded ("
              ++ toString st.maxIterations ++ ")")))) ∧
    (∀ fuel st prog n,
      executeProgram fuel { st with iterationCount := n } prog
        = executeProgram fuel st prog) ∧
    (∀ fuel st funcName args n fn,
      lookupAssoc st.userFuncs (lowerStr funcName) = some fn →
      args.length = fn.params.length →
      Call fuel { st with iterationCount := n } funcName args
        = Call fuel st funcName args) ∧
    (executeProgram 80 (SetMaxIterations NewInterpreter 3) loopTo4Prog).map
        (fun p => (p.1.output, p.2))
      = some ([.int 1, .int 2, .int 3],
          .error "runtime error at line 1, column 1: maximum iterations exceeded (3)") ∧
    (executeProgram 80 (SetMaxIterations NewInterpreter 3) twoLoopsProg).map
        (fun p => (p.1.output, p.2))
      = some ([.int 1, .int 2, .int 1],
          .error "runtime error at line 4, column 1: maximum iterations exceeded (3)") := by
  refine ⟨⟨rfl, rfl⟩, ?_, ?_, ?_, ?_, ?_⟩
  · intro fuel st pos varName body j stopInt hj hmax
    simp only [runForLoop]
    rw [if_neg (by omega : ¬ j > stopInt)]
    rw [if_pos (by omega : st.iterationCount + 1 > st.maxIterations)]
  · intro fuel st prog n
    rfl
  · intro fuel st funcName args n fn hfn har
    simp only [Call]
    rw [show ({ st with iterationCount := n } : InterpState).userFuncs = st.userFuncs from rfl,
      hfn]
    dsimp only
    rw [if_neg (not_not_intro har), if_neg (not_not_intro har)]
  · simp [executeProgram, execTopLevel, executeStatement, executeBlock, evalExpr,
      collectFuncs, NewInterpreter, SetMaxIterations, lowerStr, pushScope, popScope,
      updateCurrent, frameSet, frameGet, getVariable, lookupFrames, lookupAssoc, toInt,
      wrap64, MaxIterations, runForLoop, runtimeErrMsg, loopTo4Prog, p1, Int.emod]
    rfl
  · simp [executeProgram, execTopLevel, executeStatement, executeBlock, evalExpr,
      collectFuncs, NewInterpreter, SetMaxIterations, lowerStr, pushScope, popScope,
      updateCurrent, frameSet, frameGet, getVariable, lookupFrames, lookupAssoc, toInt,
      wrap64, MaxIterations, runForLoop, runtimeErrMsg, twoLoopsProg, p1, Int.emod]
    rfl

/-- Witness for C2: a loop entered with the counter already at the
default maximum errors immediately, and resetting the counter before a
call to the loaded `increment` function changes nothing. -/
theorem C2_iteration_bound_witness :
    runForLoop 1 maxedState p1 "i" [] 1 5
      = some ({ maxedState with iterationCount := maxedState.iterationCount + 1 },
          .error (runtimeErrMsg p1 ("maximum iterations exceeded ("
            ++ toString maxedState.maxIterations ++ ")"))) ∧
    Call 9 { Load NewInterpreter counterProg with iterationCount := 5 } "increment" []
      = Call 9 (Load NewInterpreter counterProg) "increment" [] :=
  ⟨C2_iteration_bound.2.1 0 maxedState p1 "i" [] 1 5 (by decide) (by decide),
   C2_iteration_bound.2.2.2.1 9 (Load NewInterpreter counterProg) "increment" [] 5
     ⟨p1, "increment", [], [ .assign p1 "counter" .EQ
         (some (.binary p1 (.ident p1 "counter") .PLUS (.intLit p1 1)))
       , .returnStmt p1 (some (.ident p1 "counter")) ]⟩ (by rfl) rfl⟩

end MB
